import Mathlib

/-!
# Verification of the XML2RFC v2 rendering backend (`xml2rfcv2.go`)

Shallow embedding of the `Xml2` renderer: its state (flags, section level,
document matter phase, pending IALs), its output buffer (the ordered list of
strings written by successive `WriteString`/`Write` calls; the byte content of
the Go `bytes.Buffer` is the concatenation), and the callback-driven methods
the claims are about (`Header`, `List`, `Paragraph`, `Image`, `References`,
`DocumentHeader`, `DocumentFooter`, `DocumentMatter`).

A parser callback `text func() bool` is modelled by the list of strings it
writes to the buffer (`textOut`) together with the boolean it returns
(`textRet`). Machine integers (`int`) are modelled by `Int`; the counted Go
loops (`for i := n; i > 0; i--`) are modelled by `List.replicate n.toNat`.
-/

/-- Modelled from the spec: the standalone-document configuration flag
(`XML_STANDALONE`, a `1 << iota` constant defined outside this source file;
it is the flag the guards in this file test). -/
def XML_STANDALONE : Nat := 1

/-- XML2 renderer configuration option declared in this source file
(`XML2_STANDALONE = 1 << iota`); the guards in the file test
`XML_STANDALONE` instead. -/
def XML2_STANDALONE : Nat := 1

/-- Modelled from the spec: the three document matter phases
(the `DOC_FRONT_MATTER` / `DOC_MAIN_MATTER` / `DOC_BACK_MATTER` enum
constants are defined outside this source file; the zero value, the phase a
fresh renderer starts in, is the front matter). -/
inductive DocMatter
  | front
  | main
  | back
deriving DecidableEq

/-- Modelled from the spec: an inline attribute list (IAL), a sequence of
key-value-like annotations attached by the parser to the next block (the
`IAL` type is defined outside this source file; none of its content is
inspected by the operations modelled here). -/
structure IAL where
  attrs : List (String × String)
deriving DecidableEq

/-- Modelled from the spec: a citation record (the `citation` struct is
defined outside this source file). Per the source's usage it carries a type
byte (`'i'` informative / `'n'` normative) and an explicit filename that may
be empty. -/
structure citation where
  typ : Char
  filename : String
deriving DecidableEq

/-- The `Xml2` renderer state (`flags`, `sectionLevel`, `docLevel`, pending
`ial`; the TOML title block is not touched by any operation modelled here and
is omitted). -/
structure Xml2 where
  flags : Nat
  sectionLevel : Int
  docLevel : DocMatter
  ial : List IAL
deriving DecidableEq

/-- `Xml2Renderer(flags)` returns `&Xml2{flags: flags}`: all other fields take
their Go zero values (`sectionLevel = 0`, `docLevel = DOC_FRONT_MATTER`,
`ial = nil`). -/
def Xml2Renderer (flags : Nat) : Xml2 :=
  { flags := flags, sectionLevel := 0, docLevel := DocMatter.front, ial := [] }

/-- The closing tag written for one open section. -/
def closeSectionTok : String := "</section>\n"

/-- The opening tag written for a new section with anchor `id`. -/
def sectionOpenTok (id : String) : String := "\n<section anchor=\"" ++ id ++ "\">\n"

/-- `(*Xml2).Header(out, text, level, id, quote)`. The callback is modelled by
the strings it writes (`textOut`) and the boolean it returns (which the source
ignores: `text() // check bool here`). -/
def Xml2.Header (options : Xml2) (out : List String) (textOut : List String)
    (_textRet : Bool) (level : Int) (id : String) (quote : Bool) :
    Xml2 × List String :=
  if quote then
    (options, out ++ ["<name>"] ++ textOut ++ ["</name>\n"])
  else
    let out1 :=
      if level ≤ options.sectionLevel then
        out ++ List.replicate (options.sectionLevel - level + 1).toNat closeSectionTok
      else
        out
    let out2 := out1 ++ [sectionOpenTok id, "<name>"] ++ textOut ++ ["</name>\n"]
    ({ options with sectionLevel := level }, out2)

/-- Modelled from the spec: the list-type flag bits (`LIST_TYPE_ORDERED`,
`LIST_TYPE_DEFINITION`, `1 << iota` constants defined outside this source
file). -/
def LIST_TYPE_ORDERED : Nat := 1

/-- Modelled from the spec: see `LIST_TYPE_ORDERED`. -/
def LIST_TYPE_DEFINITION : Nat := 2

/-- `(*Xml2).List(out, text, flags, start)` (named `ListBlock` here because
`Xml2.List` would shadow `List` inside its own signature). Records the
rollback marker, writes the opening tag, runs the callback, and truncates
back to the marker when the callback reports no output. -/
def Xml2.ListBlock (options : Xml2) (out : List String) (textOut : List String)
    (textRet : Bool) (flags : Nat) (start : Int) : Xml2 × List String :=
  let marker := out
  let out1 :=
    if flags &&& LIST_TYPE_ORDERED != 0 then
      if start ≤ 1 then out ++ ["<ol>\n"]
      else out ++ ["<ol start=\"" ++ toString start ++ "\">\n"]
    else if flags &&& LIST_TYPE_DEFINITION != 0 then
      out ++ ["<dl>\n"]
    else
      out ++ ["<ul>\n"]
  let out2 := out1 ++ textOut
  if !textRet then
    (options, marker)
  else
    let out3 :=
      if flags &&& LIST_TYPE_ORDERED != 0 then out2 ++ ["</ol>\n"]
      else if flags &&& LIST_TYPE_DEFINITION != 0 then out2 ++ ["</dl>\n"]
      else out2 ++ ["</ul>\n"]
    (options, out3)

/-- `(*Xml2).Paragraph(out, text)`: rollback marker, `<t>`, callback, then
either truncate back to the marker or close with `</t>\n`. -/
def Xml2.Paragraph (options : Xml2) (out : List String) (textOut : List String)
    (textRet : Bool) : Xml2 × List String :=
  let marker := out
  let out1 := out ++ ["<t>"] ++ textOut
  if !textRet then
    (options, marker)
  else
    (options, out1 ++ ["</t>\n"])

/-- `bytes.HasPrefix` on the modelled byte strings. -/
def strHasPre (pre s : String) : Bool := pre.data.isPrefixOf s.data

/-- `(*Xml2).Image(out, link, title, alt)`: links with a network scheme
prefix become a hyperlink wrapper, all others an embedded graphic (the
`title` argument is not used by the source). -/
def Xml2.Image (options : Xml2) (out : List String) (link _title alt : String) :
    Xml2 × List String :=
  if strHasPre "http://" link || strHasPre "https://" link then
    (options, out ++ ["\\href\x7b", link, "\x7d\x7b", alt, "\x7d"])
  else
    (options, out ++ ["\\includegraphics\x7b", link, "\x7d"])

/-- The filename used for a citation's inclusion reference: the explicit
filename if non-empty, otherwise the one derived by the external
naming-convention function `referenceFile` (passed in as `refFile`; the
source delegates to it, so it is a parameter here). -/
def refEntryTok (refFile : citation → String) (c : citation) : String :=
  "\t<xi:include href=\"" ++ (if c.filename = "" then refFile c else c.filename) ++ "\"/>\n"

/-- `(*Xml2).References(out, citations, first)`. The Go `map[string]*citation`
is modelled as an association list in the map's iteration order; both
citation loops of the source traverse it in that same order. -/
def Xml2.References (options : Xml2) (out : List String)
    (refFile : citation → String) (citations : List (String × citation))
    (first : Bool) : Xml2 × List String :=
  if !first || options.flags &&& XML_STANDALONE == 0 then
    (options, out)
  else
    let n := options.sectionLevel.toNat
    let options1 := { options with sectionLevel := options.sectionLevel - n }
    let out1 := out ++ List.replicate n closeSectionTok
    let out2 := out1 ++
      (match options1.docLevel with
       | DocMatter.front => ["</front>\n", "<back>\n"]
       | DocMatter.main => ["</middle>\n", "<back>\n"]
       | DocMatter.back => [])
    let options2 := { options1 with docLevel := DocMatter.back }
    let refi := (citations.filter (fun c => c.2.typ == 'i')).length
    let refn := (citations.filter (fun c => c.2.typ == 'n')).length
    let out3 :=
      if refi + refn > 0 then
        let outi :=
          if refi > 0 then
            out2 ++ ["<references title=\"Informative References\">\n"]
              ++ (citations.filter (fun c => c.2.typ == 'i')).map
                   (fun c => refEntryTok refFile c.2)
              ++ ["</references>\n"]
          else out2
        if refn > 0 then
          outi ++ ["<references title=\"Normative References\">\n"]
            ++ (citations.filter (fun c => c.2.typ == 'n')).map
                 (fun c => refEntryTok refFile c.2)
            ++ ["</references>\n"]
        else outi
      else out2
    (options2, out3)

/-- `(*Xml2).DocumentHeader(out, first)`. -/
def Xml2.DocumentHeader (options : Xml2) (out : List String) (first : Bool) :
    Xml2 × List String :=
  if !first || options.flags &&& XML_STANDALONE == 0 then
    (options, out)
  else
    (options, out ++ ["<?xml version=\"1.0\" encoding=\"UTF-8\"?>\n"])

/-- The closing tag of the currently open matter container. -/
def matterCloseTok : DocMatter → String
  | DocMatter.front => "</front>\n"
  | DocMatter.main => "</middle>\n"
  | DocMatter.back => "</back>\n"

/-- `(*Xml2).DocumentFooter(out, first)`: drain the open sections (the loop
decrements `sectionLevel` once per emitted closing tag), close the open
matter container, close the document wrapper. -/
def Xml2.DocumentFooter (options : Xml2) (out : List String) (first : Bool) :
    Xml2 × List String :=
  if !first || options.flags &&& XML_STANDALONE == 0 then
    (options, out)
  else
    let n := options.sectionLevel.toNat
    let options1 := { options with sectionLevel := options.sectionLevel - n }
    (options1,
      out ++ List.replicate n closeSectionTok
          ++ [matterCloseTok options1.docLevel, "</rfc>\n"])

/-- `(*Xml2).DocumentMatter(out, matter)`: note there is no `first`/standalone
guard in the source; the transition tags are written and `docLevel` is set
unconditionally. -/
def Xml2.DocumentMatter (options : Xml2) (out : List String) (matter : DocMatter) :
    Xml2 × List String :=
  let out1 :=
    match matter with
    | DocMatter.front => out
    | DocMatter.main => out ++ ["</front>\n", "<middle>\n"]
    | DocMatter.back => out ++ ["</middle>\n", "<back>\n"]
  ({ options with docLevel := matter }, out1)

/-! ## Derived notions used by the claims -/

/-- The byte content of the output buffer: the concatenation of the writes. -/
def bufBytes (out : List String) : String := String.join out

/-- Number of section-closing tags among the written strings. -/
def countCloseTags (out : List String) : Nat :=
  out.countP (fun s => s == closeSectionTok)

/-- Does a written string open a section container? -/
def isSectionOpenTok (s : String) : Bool := strHasPre "\n<section anchor=\"" s

/-- Number of section-opening tags among the written strings. -/
def countOpenTags (out : List String) : Nat := out.countP isSectionOpenTok

/-- A string written by an inner title callback that is neither a
section-closing nor a section-opening tag. -/
def cleanTok (s : String) : Bool := !(s == closeSectionTok) && !(isSectionOpenTok s)

/-- All of a callback's output is free of section open/close tags. -/
def cleanOut (ts : List String) : Bool := ts.all cleanTok

/-- One `Header` call of a run: the callback's writes and return value, the
heading level, the anchor id and the quoted-context flag. -/
structure HeaderCall where
  textOut : List String
  textRet : Bool
  level : Int
  id : String
  quote : Bool
deriving DecidableEq

/-- Run a sequence of `Header` calls. -/
def runHeaders (o : Xml2) (out : List String) : List HeaderCall → Xml2 × List String
  | [] => (o, out)
  | c :: cs =>
    let r := o.Header out c.textOut c.textRet c.level c.id c.quote
    runHeaders r.1 r.2 cs

/-- The state after one `Header` call (independent of the buffer). -/
def headerStep (o : Xml2) (c : HeaderCall) : Xml2 :=
  if c.quote then o else { o with sectionLevel := c.level }

/-- A run of `Header` calls is well-formed for the balanced-nesting claim:
every call is non-quoted, its title callback writes no section tags, and its
level is at least 1 and exceeds the current section level by at most one. -/
def headerOk : Xml2 → List HeaderCall → Bool
  | _, [] => true
  | o, c :: cs =>
    !c.quote && cleanOut c.textOut && decide (1 ≤ c.level)
      && decide (c.level ≤ o.sectionLevel + 1) && headerOk (headerStep o c) cs

/-- One document-lifecycle call. -/
inductive DocCall
  | docHeader (first : Bool)
  | docFooter (first : Bool)
  | docMatter (matter : DocMatter)
  | refs (refFile : citation → String) (citations : List (String × citation)) (first : Bool)

/-- Is a lifecycle call a `DocumentMatter` call? -/
def DocCall.isMatter : DocCall → Bool
  | DocCall.docMatter _ => true
  | _ => false

/-- Run a sequence of document-lifecycle calls. -/
def runDocCalls (o : Xml2) (out : List String) : List DocCall → Xml2 × List String
  | [] => (o, out)
  | c :: cs =>
    let r :=
      match c with
      | DocCall.docHeader first => o.DocumentHeader out first
      | DocCall.docFooter first => o.DocumentFooter out first
      | DocCall.docMatter m => o.DocumentMatter out m
      | DocCall.refs refFile citations first => o.References out refFile citations first
    runDocCalls r.1 r.2 cs

/-- The matter-transition tags `References` writes for each open phase. -/
def matterTransToks : DocMatter → List String
  | DocMatter.front => ["</front>\n", "<back>\n"]
  | DocMatter.main => ["</middle>\n", "<back>\n"]
  | DocMatter.back => []

/-- The tags `DocumentMatter` writes for each requested phase. -/
def docMatterToks : DocMatter → List String
  | DocMatter.front => []
  | DocMatter.main => ["</front>\n", "<middle>\n"]
  | DocMatter.back => ["</middle>\n", "<back>\n"]

/-- The C1 counterexample run: a single heading that jumps from depth 0
directly to level 2, followed by the standalone footer. -/
def c1RunEx : Xml2 × List String :=
  runHeaders (Xml2Renderer 1) [] [⟨["T"], true, 2, "a", false⟩]

/-- The whole output buffer of the C1 counterexample document. -/
def c1FinalEx : List String := (c1RunEx.1.DocumentFooter c1RunEx.2 true).2

/-- Spec-side description of one reference group: nothing at all when the
bucket is empty, otherwise a titled group container holding one inclusion
reference per citation, each using the explicit filename when non-empty and
the externally derived one otherwise. -/
def refGroupOut (title : String) (refFile : citation → String)
    (cs : List citation) : List String :=
  if cs.isEmpty then []
  else
    ["<references title=\"" ++ title ++ "\">\n"]
      ++ cs.map (fun c =>
          "\t<xi:include href=\""
            ++ (if c.filename ≠ "" then c.filename else refFile c) ++ "\"/>\n")
      ++ ["</references>\n"]

/-- Spec-side description of the whole references block: the citations
partitioned by kind, the informative group first, then the normative group. -/
def refGroupsOut (refFile : citation → String)
    (citations : List (String × citation)) : List String :=
  refGroupOut "Informative References" refFile
      ((citations.filter (fun c => c.2.typ == 'i')).map Prod.snd)
    ++ refGroupOut "Normative References" refFile
      ((citations.filter (fun c => c.2.typ == 'n')).map Prod.snd)

/-! ## Basic lemmas about the derived notions -/

lemma isPrefixOf_append_self (l t : List Char) : l.isPrefixOf (l ++ t) = true := by
  induction l with
  | nil => simp [List.isPrefixOf]
  | cons a as ih => simp [List.isPrefixOf, ih]

lemma isOpen_sectionOpenTok (id : String) : isSectionOpenTok (sectionOpenTok id) = true := by
  simp [isSectionOpenTok, sectionOpenTok, strHasPre]

lemma open_ne_close (id : String) : (sectionOpenTok id == closeSectionTok) = false := by
  by_contra hne
  have h : sectionOpenTok id = closeSectionTok := by
    have h1 : (sectionOpenTok id == closeSectionTok) = true := by
      revert hne
      cases sectionOpenTok id == closeSectionTok <;> simp
    exact eq_of_beq h1
  have h2 : isSectionOpenTok (sectionOpenTok id) = true := isOpen_sectionOpenTok id
  rw [h] at h2
  have h3 : isSectionOpenTok closeSectionTok = false := by decide
  rw [h2] at h3
  exact Bool.noConfusion h3

lemma countP_repl (p : String → Bool) (n : Nat) (a : String) :
    (List.replicate n a).countP p = if p a then n else 0 := by
  induction n with
  | zero => simp
  | succ k ih => by_cases h : p a <;> simp [List.replicate_succ, List.countP_cons, ih, h]

lemma countCloseTags_append (l1 l2 : List String) :
    countCloseTags (l1 ++ l2) = countCloseTags l1 + countCloseTags l2 := by
  simp [countCloseTags, List.countP_append]

lemma countOpenTags_append (l1 l2 : List String) :
    countOpenTags (l1 ++ l2) = countOpenTags l1 + countOpenTags l2 := by
  simp [countOpenTags, List.countP_append]

lemma countCloseTags_repl (n : Nat) :
    countCloseTags (List.replicate n closeSectionTok) = n := by
  simp [countCloseTags, countP_repl]

lemma countOpenTags_repl (n : Nat) :
    countOpenTags (List.replicate n closeSectionTok) = 0 := by
  have h : isSectionOpenTok closeSectionTok = false := by decide
  simp [countOpenTags, countP_repl, h]

lemma countCloseTags_open (id : String) : countCloseTags [sectionOpenTok id] = 0 := by
  simp [countCloseTags, List.countP_cons, open_ne_close]

lemma countOpenTags_open (id : String) : countOpenTags [sectionOpenTok id] = 1 := by
  simp [countOpenTags, List.countP_cons, isOpen_sectionOpenTok]

lemma clean_counts (ts : List String) (h : cleanOut ts = true) :
    countCloseTags ts = 0 ∧ countOpenTags ts = 0 := by
  constructor
  · rw [countCloseTags]
    apply List.countP_eq_zero.mpr
    intro a ha
    have h1 := (List.all_eq_true.mp h) a ha
    simp only [cleanTok, Bool.and_eq_true, Bool.not_eq_true'] at h1
    simp [h1.1]
  · rw [countOpenTags]
    apply List.countP_eq_zero.mpr
    intro a ha
    have h1 := (List.all_eq_true.mp h) a ha
    simp only [cleanTok, Bool.and_eq_true, Bool.not_eq_true'] at h1
    simp [h1.2]

lemma footer_tail_counts (d : DocMatter) :
    countCloseTags [matterCloseTok d, "</rfc>\n"] = 0 ∧
    countOpenTags [matterCloseTok d, "</rfc>\n"] = 0 := by
  cases d <;> exact ⟨by decide, by decide⟩

/-! ## Claim theorems -/

/-- C2: for a `Header` call with `quote = false`: when `level ≤ sectionLevel`,
exactly `sectionLevel - level + 1` closing section tags are emitted, then one
new section container tagged with the anchor id is opened with the rendered
title wrapped in a `<name>` node; when the level jumps past the previous
depth, no intermediate containers are synthesized — one section is opened; in
both cases `sectionLevel` becomes `level`. -/
theorem xml2_c2_headerTransitions (o : Xml2) (out ts : List String) (b : Bool)
    (level : Int) (id : String) :
    (level ≤ o.sectionLevel →
      (o.Header out ts b level id false).2 =
        out ++ List.replicate (o.sectionLevel - level + 1).toNat closeSectionTok
          ++ [sectionOpenTok id, "<name>"] ++ ts ++ ["</name>\n"] ∧
      (((o.sectionLevel - level + 1).toNat : Int) = o.sectionLevel - level + 1)) ∧
    (o.sectionLevel < level →
      (o.Header out ts b level id false).2 =
        out ++ [sectionOpenTok id, "<name>"] ++ ts ++ ["</name>\n"]) ∧
    (o.Header out ts b level id false).1 = { o with sectionLevel := level } := by
  refine ⟨fun h => ⟨?_, ?_⟩, fun h => ?_, ?_⟩
  · simp [Xml2.Header, if_pos h]
  · omega
  · simp [Xml2.Header, if_neg (not_le.mpr h)]
  · simp [Xml2.Header]

/-- Witness for C2 at concrete inputs: a level-1 heading under two open
sections closes both of them, and a heading jumping from depth 0 to level 3
closes nothing. -/
theorem xml2_c2_headerTransitions_witness :
    (({ flags := 1, sectionLevel := 2, docLevel := DocMatter.front, ial := [] } : Xml2).Header
        ["p"] ["T"] true 1 "a" false).2 =
      ["p"] ++ List.replicate 2 closeSectionTok
        ++ [sectionOpenTok "a", "<name>", "T", "</name>\n"] ∧
    (({ flags := 1, sectionLevel := 0, docLevel := DocMatter.front, ial := [] } : Xml2).Header
        ["p"] ["T"] true 3 "b" false).2 =
      ["p"] ++ [sectionOpenTok "b", "<name>", "T", "</name>\n"] := by
  constructor
  · have h := (xml2_c2_headerTransitions
      { flags := 1, sectionLevel := 2, docLevel := DocMatter.front, ial := [] }
      ["p"] ["T"] true 1 "a").1 (by decide)
    simpa using h.1
  · have h := (xml2_c2_headerTransitions
      { flags := 1, sectionLevel := 0, docLevel := DocMatter.front, ial := [] }
      ["p"] ["T"] true 3 "b").2.1 (by decide)
    simpa using h

/-- C4: `DocumentHeader`, `DocumentFooter` and `References` with
`first = false`, or with the standalone flag unset, are no-ops: both the
output buffer and the whole renderer state (`sectionLevel`, `docLevel`,
pending IALs) are unchanged. -/
theorem xml2_c4_lifecycleNoop (o : Xml2) (out : List String) (first : Bool)
    (refFile : citation → String) (citations : List (String × citation))
    (h : first = false ∨ o.flags &&& XML_STANDALONE = 0) :
    o.DocumentHeader out first = (o, out) ∧
    o.DocumentFooter out first = (o, out) ∧
    o.References out refFile citations first = (o, out) := by
  have hg : (!first || (o.flags &&& XML_STANDALONE == 0)) = true := by
    rcases h with h | h <;> simp [h]
  exact ⟨by simp [Xml2.DocumentHeader, hg], by simp [Xml2.DocumentFooter, hg],
    by simp [Xml2.References, hg]⟩

/-- Witness for C4: second-pass (`first = false`) lifecycle calls on a
standalone renderer leave buffer and state untouched. -/
theorem xml2_c4_lifecycleNoop_witness :
    (Xml2Renderer 1).DocumentHeader ["x"] false = (Xml2Renderer 1, ["x"]) ∧
    (Xml2Renderer 1).DocumentFooter ["x"] false = (Xml2Renderer 1, ["x"]) ∧
    (Xml2Renderer 1).References ["x"] (fun _ => "f.xml") [] false =
      (Xml2Renderer 1, ["x"]) :=
  xml2_c4_lifecycleNoop (Xml2Renderer 1) ["x"] false (fun _ => "f.xml") [] (Or.inl rfl)

/-- C5: `DocumentFooter` with `first = true` in standalone mode appends, in
order, `sectionLevel` closing section tags (draining `sectionLevel` to 0),
the closing tag of the open matter container, and the closing `</rfc>`
wrapper tag. -/
theorem xml2_c5_footerOrder (o : Xml2) (out : List String) (k : Nat)
    (hs : o.sectionLevel = (k : Int)) (hflag : o.flags &&& XML_STANDALONE ≠ 0) :
    o.DocumentFooter out true =
      ({ o with sectionLevel := 0 },
        out ++ List.replicate k closeSectionTok
          ++ [matterCloseTok o.docLevel, "</rfc>\n"]) := by
  have hg : ((o.flags &&& XML_STANDALONE == 0) : Bool) = false := by
    simpa using hflag
  simp [Xml2.DocumentFooter, hg, hs]

/-- Witness for C5: a standalone renderer in main matter with two open
sections closes both, then `</middle>`, then `</rfc>`. -/
theorem xml2_c5_footerOrder_witness :
    ({ flags := 1, sectionLevel := 2, docLevel := DocMatter.main, ial := [] } : Xml2).DocumentFooter
        ["p"] true =
      ({ flags := 1, sectionLevel := 0, docLevel := DocMatter.main, ial := [] },
        ["p"] ++ List.replicate 2 closeSectionTok ++ ["</middle>\n", "</rfc>\n"]) := by
  have h := xml2_c5_footerOrder
    { flags := 1, sectionLevel := 2, docLevel := DocMatter.main, ial := [] }
    ["p"] 2 (by decide) (by decide)
  simpa [matterCloseTok] using h

/-- C8: `List` (any flags and start value) and `Paragraph` calls whose inner
callback returns `false` leave the output buffer byte-for-byte identical (the
opening tag and anything the callback wrote are truncated away and no closing
tag is written); the state is untouched too. -/
theorem xml2_c8_emptyRollback (o : Xml2) (out ts : List String) (flags : Nat)
    (start : Int) :
    o.ListBlock out ts false flags start = (o, out) ∧
    o.Paragraph out ts false = (o, out) ∧
    bufBytes (o.ListBlock out ts false flags start).2 = bufBytes out ∧
    bufBytes (o.Paragraph out ts false).2 = bufBytes out := by
  have h1 : o.ListBlock out ts false flags start = (o, out) := by
    simp [Xml2.ListBlock]
  have h2 : o.Paragraph out ts false = (o, out) := by
    simp [Xml2.Paragraph]
  exact ⟨h1, h2, by rw [h1], by rw [h2]⟩

/-- C9: `Image` with a link carrying a network scheme prefix emits the
hyperlink wrapper containing the link and the alt text; any other link emits
the embedded-graphic wrapper containing the link. -/
theorem xml2_c9_imageDispatch (o : Xml2) (out : List String)
    (link title alt : String) :
    ((strHasPre "http://" link = true ∨ strHasPre "https://" link = true) →
      o.Image out link title alt =
        (o, out ++ ["\\href\x7b", link, "\x7d\x7b", alt, "\x7d"])) ∧
    (strHasPre "http://" link = false → strHasPre "https://" link = false →
      o.Image out link title alt =
        (o, out ++ ["\\includegraphics\x7b", link, "\x7d"])) := by
  constructor
  · intro h
    have hb : (strHasPre "http://" link || strHasPre "https://" link) = true := by
      rcases h with h | h <;> simp [h]
    simp [Xml2.Image, hb]
  · intro h1 h2
    simp [Xml2.Image, h1, h2]

/-- Witness for C9: an `http://` link becomes a hyperlink, a bare filename an
embedded graphic. -/
theorem xml2_c9_imageDispatch_witness :
    (Xml2Renderer 1).Image [] "http://e/x.png" "t" "alt" =
      (Xml2Renderer 1, ["\\href\x7b", "http://e/x.png", "\x7d\x7b", "alt", "\x7d"]) ∧
    (Xml2Renderer 1).Image [] "local.png" "t" "alt" =
      (Xml2Renderer 1, ["\\includegraphics\x7b", "local.png", "\x7d"]) := by
  constructor
  · have h := (xml2_c9_imageDispatch (Xml2Renderer 1) [] "http://e/x.png" "t" "alt").1
      (Or.inl (by decide))
    simpa using h
  · have h := (xml2_c9_imageDispatch (Xml2Renderer 1) [] "local.png" "t" "alt").2
      (by decide) (by decide)
    simpa using h

/-- C10: `Header` ignores the boolean returned by its title callback: the
result is the same for either returned boolean, and in both the quoted and
non-quoted cases the wrapping tags are emitted unconditionally, with no
rollback — unlike `List` and `Paragraph`. -/
theorem xml2_c10_headerIgnoresBool (o : Xml2) (out ts : List String) (b : Bool)
    (level : Int) (id : String) (quote : Bool) :
    o.Header out ts b level id quote = o.Header out ts true level id quote ∧
    (quote = true →
      o.Header out ts b level id quote =
        (o, out ++ ["<name>"] ++ ts ++ ["</name>\n"])) ∧
    (quote = false →
      (o.Header out ts b level id quote).2 =
        (if level ≤ o.sectionLevel then
            out ++ List.replicate (o.sectionLevel - level + 1).toNat closeSectionTok
          else out)
          ++ [sectionOpenTok id, "<name>"] ++ ts ++ ["</name>\n"] ∧
      (o.Header out ts b level id quote).1 = { o with sectionLevel := level }) := by
  refine ⟨rfl, fun h => ?_, fun h => ?_⟩
  · subst h
    simp [Xml2.Header]
  · subst h
    constructor
    · by_cases hl : level ≤ o.sectionLevel <;> simp [Xml2.Header, hl]
    · simp [Xml2.Header]

/-- Witness for C10: with a callback returning `false`, both the quoted and
the non-quoted case still emit all wrapping tags. -/
theorem xml2_c10_headerIgnoresBool_witness :
    (Xml2Renderer 1).Header ["p"] ["T"] false 1 "a" true =
      (Xml2Renderer 1, ["p", "<name>", "T", "</name>\n"]) ∧
    ((Xml2Renderer 1).Header ["p"] ["T"] false 1 "a" false).2 =
      ["p", sectionOpenTok "a", "<name>", "T", "</name>\n"] := by
  constructor
  · have h := (xml2_c10_headerIgnoresBool (Xml2Renderer 1) ["p"] ["T"] false 1 "a" true).2.1 rfl
    simpa using h
  · have h := ((xml2_c10_headerIgnoresBool (Xml2Renderer 1) ["p"] ["T"] false 1 "a" false).2.2 rfl).1
    simpa [Xml2Renderer] using h

/-! ## `References` and `DocumentMatter` claims -/

lemma entry_form (refFile : citation → String) (c : citation) :
    refEntryTok refFile c =
      "\t<xi:include href=\""
        ++ (if c.filename ≠ "" then c.filename else refFile c) ++ "\"/>\n" := by
  by_cases h : c.filename = "" <;> simp [refEntryTok, h]

lemma references_eq (o : Xml2) (out : List String) (refFile : citation → String)
    (citations : List (String × citation)) (hflag : o.flags &&& XML_STANDALONE ≠ 0) :
    o.References out refFile citations true =
      ({ o with sectionLevel := o.sectionLevel - o.sectionLevel.toNat
              , docLevel := DocMatter.back },
        out ++ List.replicate o.sectionLevel.toNat closeSectionTok
          ++ matterTransToks o.docLevel ++ refGroupsOut refFile citations) := by
  have hg : ((o.flags &&& XML_STANDALONE == 0) : Bool) = false := by
    simpa using hflag
  have hmap : ∀ p : String × citation → Bool,
      (citations.filter p).map (fun c => refEntryTok refFile c.2)
        = ((citations.filter p).map Prod.snd).map
            (fun c => "\t<xi:include href=\""
              ++ (if c.filename ≠ "" then c.filename else refFile c) ++ "\"/>\n") := by
    intro p
    rw [List.map_map]
    congr 1
    funext c
    exact entry_form refFile c.2
  by_cases hi : citations.filter (fun c => c.2.typ == 'i') = [] <;>
    by_cases hn : citations.filter (fun c => c.2.typ == 'n') = [] <;>
      cases hd : o.docLevel <;>
        simp [Xml2.References, hg, hd, matterTransToks, refGroupsOut, refGroupOut, hi, hn,
          hmap, Nat.pos_iff_ne_zero, List.length_eq_zero]

/-- C6: `References` with `first = true` in standalone mode drains the open
sections to 0 with the same closing-tag sequence as the footer handler
(`sectionLevel` many `</section>` tags), then closes the open matter
container and opens the back matter (emitting nothing for the transition when
the phase is already Back, as `matterTransToks DocMatter.back = []` shows),
and sets the matter phase to Back. -/
theorem xml2_c6_referencesTransition (o : Xml2) (out : List String)
    (refFile : citation → String) (citations : List (String × citation)) (k : Nat)
    (hs : o.sectionLevel = (k : Int)) (hflag : o.flags &&& XML_STANDALONE ≠ 0) :
    (o.References out refFile citations true).1 =
      { o with sectionLevel := 0, docLevel := DocMatter.back } ∧
    (o.References out refFile citations true).2 =
      out ++ List.replicate k closeSectionTok ++ matterTransToks o.docLevel
        ++ refGroupsOut refFile citations ∧
    matterTransToks DocMatter.back = [] := by
  rw [references_eq o out refFile citations hflag]
  refine ⟨?_, ?_, rfl⟩
  · simp [hs]
  · simp [hs]

/-- Witness for C6: one open section in main matter is closed, then
`</middle>` and `<back>` are written, and the phase becomes Back. -/
theorem xml2_c6_referencesTransition_witness :
    (({ flags := 1, sectionLevel := 1, docLevel := DocMatter.main, ial := [] } : Xml2).References
        ["p"] (fun _ => "f.xml") [] true).1 =
      { flags := 1, sectionLevel := 0, docLevel := DocMatter.back, ial := [] } ∧
    (({ flags := 1, sectionLevel := 1, docLevel := DocMatter.main, ial := [] } : Xml2).References
        ["p"] (fun _ => "f.xml") [] true).2 =
      ["p"] ++ List.replicate 1 closeSectionTok ++ matterTransToks DocMatter.main
        ++ refGroupsOut (fun _ => "f.xml") [] := by
  have h := xml2_c6_referencesTransition
    { flags := 1, sectionLevel := 1, docLevel := DocMatter.main, ial := [] }
    ["p"] (fun _ => "f.xml") [] 1 (by decide) (by decide)
  exact ⟨h.1, h.2.1⟩

/-- C7: the output of `References (first = true)` in standalone mode is the
citation-independent prefix (drain + matter transition) followed by the
partitioned reference groups: the Informative group before the Normative
group, no container at all for a kind with zero citations, and each inclusion
reference using the explicit filename when non-empty and the externally
derived filename otherwise (see `refGroupsOut`/`refGroupOut`). -/
theorem xml2_c7_citationGroups (o : Xml2) (out : List String)
    (refFile : citation → String) (citations : List (String × citation))
    (hflag : o.flags &&& XML_STANDALONE ≠ 0) :
    (o.References out refFile citations true).2 =
      (o.References out refFile [] true).2 ++ refGroupsOut refFile citations := by
  have hnil : refGroupsOut refFile [] = [] := by
    simp [refGroupsOut, refGroupOut]
  rw [references_eq o out refFile citations hflag, references_eq o out refFile [] hflag, hnil]
  simp

/-- Witness for C7 at the spec's example `{A: Normative, B: Informative,
C: Normative}`. -/
theorem xml2_c7_citationGroups_witness :
    ((Xml2Renderer 1).References [] (fun _ => "derived.xml")
        [("A", ⟨'n', ""⟩), ("B", ⟨'i', "b.xml"⟩), ("C", ⟨'n', ""⟩)] true).2 =
      ((Xml2Renderer 1).References [] (fun _ => "derived.xml") [] true).2
        ++ refGroupsOut (fun _ => "derived.xml")
            [("A", ⟨'n', ""⟩), ("B", ⟨'i', "b.xml"⟩), ("C", ⟨'n', ""⟩)] :=
  xml2_c7_citationGroups (Xml2Renderer 1) [] (fun _ => "derived.xml")
    [("A", ⟨'n', ""⟩), ("B", ⟨'i', "b.xml"⟩), ("C", ⟨'n', ""⟩)] (by decide)

lemma runDocCalls_noop (o : Xml2) (cs : List DocCall)
    (hflag : o.flags &&& XML_STANDALONE = 0) :
    ∀ out, (∀ c ∈ cs, c.isMatter = false) → runDocCalls o out cs = (o, out) := by
  induction cs with
  | nil => intro out _; rfl
  | cons c cs ih =>
    intro out hm
    have hcs : ∀ x ∈ cs, x.isMatter = false := fun x hx => hm x (List.mem_cons_of_mem _ hx)
    cases c with
    | docHeader first =>
      have hc : o.DocumentHeader out first = (o, out) := by
        simp [Xml2.DocumentHeader, hflag]
      simp [runDocCalls, hc, ih out hcs]
    | docFooter first =>
      have hc : o.DocumentFooter out first = (o, out) := by
        simp [Xml2.DocumentFooter, hflag]
      simp [runDocCalls, hc, ih out hcs]
    | docMatter m =>
      have hc := hm (DocCall.docMatter m) (List.mem_cons_self _ _)
      simp [DocCall.isMatter] at hc
    | refs refFile citations first =>
      have hc : o.References out refFile citations first = (o, out) := by
        simp [Xml2.References, hflag]
      simp [runDocCalls, hc, ih out hcs]

/-- C3 counterexample: with the standalone flag unset, a `DocumentMatter`
call still emits the matter-transition tags (the source has no flag guard in
`DocumentMatter`), so the buffer does not stay fragment-only. -/
theorem xml2_c3_counterexample :
    (runDocCalls (Xml2Renderer 0) [] [DocCall.docMatter DocMatter.main]).2 =
      ["</front>\n", "<middle>\n"] ∧
    ¬ ((runDocCalls (Xml2Renderer 0) [] [DocCall.docMatter DocMatter.main]).2 = []) := by
  exact ⟨by decide, by decide⟩

/-- C3 (amended): with the standalone flag unset, any sequence of
`DocumentHeader`, `DocumentFooter` and `References` calls emits nothing and
leaves the state unchanged; `DocumentMatter`, however, emits its
matter-transition tags regardless of the flag. -/
theorem xml2_c3_fragmentMode (o : Xml2) (out : List String) (cs : List DocCall)
    (hflag : o.flags &&& XML_STANDALONE = 0)
    (hm : ∀ c ∈ cs, c.isMatter = false) :
    runDocCalls o out cs = (o, out) ∧
    ∀ m, o.DocumentMatter out m = ({ o with docLevel := m }, out ++ docMatterToks m) := by
  refine ⟨runDocCalls_noop o cs hflag out hm, ?_⟩
  intro m
  cases m <;> simp [Xml2.DocumentMatter, docMatterToks]

/-- Witness for C3 (amended): a non-standalone renderer run through header,
references and footer calls emits nothing, while a `DocumentMatter Main` call
emits the transition tags. -/
theorem xml2_c3_fragmentMode_witness :
    runDocCalls (Xml2Renderer 0) ["frag"]
      [DocCall.docHeader true, DocCall.refs (fun _ => "f.xml") [("A", ⟨'n', ""⟩)] true,
        DocCall.docFooter true] = (Xml2Renderer 0, ["frag"]) ∧
    (Xml2Renderer 0).DocumentMatter ["frag"] DocMatter.main =
      ({ (Xml2Renderer 0) with docLevel := DocMatter.main },
        ["frag"] ++ docMatterToks DocMatter.main) := by
  have h := xml2_c3_fragmentMode (Xml2Renderer 0) ["frag"]
    [DocCall.docHeader true, DocCall.refs (fun _ => "f.xml") [("A", ⟨'n', ""⟩)] true,
      DocCall.docFooter true] (by decide)
    (by
      intro c hc
      simp only [List.mem_cons, List.not_mem_nil, or_false] at hc
      rcases hc with rfl | rfl | rfl <;> rfl)
  exact ⟨h.1, h.2 DocMatter.main⟩

/-! ## C1: section-tag balance across a document -/

lemma isOpen_name : isSectionOpenTok "<name>" = false := by decide

lemma isOpen_nameClose : isSectionOpenTok "</name>\n" = false := by decide

lemma isOpen_close : isSectionOpenTok closeSectionTok = false := by decide

lemma name_ne_close : (("<name>" : String) == closeSectionTok) = false := by decide

lemma nameClose_ne_close : (("</name>\n" : String) == closeSectionTok) = false := by decide

lemma clean_countP (ts : List String) (h : cleanOut ts = true) :
    List.countP (fun s => s == closeSectionTok) ts = 0 ∧
    List.countP isSectionOpenTok ts = 0 := by
  have hc := clean_counts ts h
  exact ⟨hc.1, hc.2⟩

lemma header_result (o : Xml2) (out ts : List String) (b : Bool) (level : Int)
    (id : String) :
    o.Header out ts b level id false =
      ({ o with sectionLevel := level },
        (if level ≤ o.sectionLevel then
            out ++ List.replicate (o.sectionLevel - level + 1).toNat closeSectionTok
          else out) ++ [sectionOpenTok id, "<name>"] ++ ts ++ ["</name>\n"]) := by
  by_cases h : level ≤ o.sectionLevel <;> simp [Xml2.Header, h]

lemma runHeaders_inv (cs : List HeaderCall) :
    ∀ (o : Xml2) (out : List String), headerOk o cs = true → 0 ≤ o.sectionLevel →
      0 ≤ (runHeaders o out cs).1.sectionLevel ∧
      ((countOpenTags (runHeaders o out cs).2 : Int)
          - countCloseTags (runHeaders o out cs).2
        = (countOpenTags out : Int) - countCloseTags out
          + ((runHeaders o out cs).1.sectionLevel - o.sectionLevel)) ∧
      (runHeaders o out cs).1.flags = o.flags := by
  induction cs with
  | nil =>
    intro o out _ h0
    exact ⟨h0, by simp [runHeaders], rfl⟩
  | cons c cs ih =>
    intro o out hok h0
    simp only [headerOk, Bool.and_eq_true, Bool.not_eq_true', decide_eq_true_eq] at hok
    obtain ⟨⟨⟨⟨hq, hclean⟩, h1⟩, h2⟩, hrest⟩ := hok
    simp only [headerStep, hq, Bool.false_eq_true, if_false] at hrest
    have hrun : runHeaders o out (c :: cs) =
        runHeaders { o with sectionLevel := c.level }
          ((if c.level ≤ o.sectionLevel then
              out ++ List.replicate (o.sectionLevel - c.level + 1).toNat closeSectionTok
            else out)
            ++ [sectionOpenTok c.id, "<name>"] ++ c.textOut ++ ["</name>\n"]) cs := by
      simp only [runHeaders, hq, header_result]
    rw [hrun]
    set N := (if c.level ≤ o.sectionLevel then
        out ++ List.replicate (o.sectionLevel - c.level + 1).toNat closeSectionTok
      else out) ++ [sectionOpenTok c.id, "<name>"] ++ c.textOut ++ ["</name>\n"] with hN
    obtain ⟨ha, hb, hc2⟩ :=
      ih { o with sectionLevel := c.level } N hrest (show (0 : Int) ≤ c.level by omega)
    have hb2 : (countOpenTags (runHeaders { o with sectionLevel := c.level } N cs).2 : Int)
        - countCloseTags (runHeaders { o with sectionLevel := c.level } N cs).2
        = (countOpenTags N : Int) - countCloseTags N
          + ((runHeaders { o with sectionLevel := c.level } N cs).1.sectionLevel
              - c.level) := by
      simpa using hb
    refine ⟨ha, ?_, by simpa using hc2⟩
    obtain ⟨hcP, hoP⟩ := clean_countP c.textOut hclean
    by_cases hle : c.level ≤ o.sectionLevel
    · have hno1 : countOpenTags N = countOpenTags out + 1 := by
        rw [hN, if_pos hle]
        simp [countOpenTags, List.countP_append, List.countP_cons, countP_repl,
          isOpen_sectionOpenTok, isOpen_name, isOpen_nameClose, isOpen_close, hoP]
      have hno2 : countCloseTags N
          = countCloseTags out + (o.sectionLevel - c.level + 1).toNat := by
        rw [hN, if_pos hle]
        simp [countCloseTags, List.countP_append, List.countP_cons, countP_repl,
          open_ne_close, name_ne_close, nameClose_ne_close, hcP]
      omega
    · have hno1 : countOpenTags N = countOpenTags out + 1 := by
        rw [hN, if_neg hle]
        simp [countOpenTags, List.countP_append, List.countP_cons,
          isOpen_sectionOpenTok, isOpen_name, isOpen_nameClose, hoP]
      have hno2 : countCloseTags N = countCloseTags out := by
        rw [hN, if_neg hle]
        simp [countCloseTags, List.countP_append, List.countP_cons,
          open_ne_close, name_ne_close, nameClose_ne_close, hcP]
      omega

/-- C1 (amended): for a run of non-quoted `Header` calls whose title
callbacks write no section tags and whose levels are at least 1 and never
jump more than one past the current depth, followed by
`DocumentFooter (first = true)` in standalone mode, the total number of
section-close tags equals the total number of section-open tags, and the
footer emits exactly `sectionLevel`-at-footer-time close tags. -/
theorem xml2_c1_sectionBalance (flags : Nat) (cs : List HeaderCall)
    (hflag : flags &&& XML_STANDALONE ≠ 0)
    (hok : headerOk (Xml2Renderer flags) cs = true) :
    countOpenTags ((runHeaders (Xml2Renderer flags) [] cs).1.DocumentFooter
        (runHeaders (Xml2Renderer flags) [] cs).2 true).2 =
      countCloseTags ((runHeaders (Xml2Renderer flags) [] cs).1.DocumentFooter
        (runHeaders (Xml2Renderer flags) [] cs).2 true).2 ∧
    countCloseTags ((runHeaders (Xml2Renderer flags) [] cs).1.DocumentFooter
        (runHeaders (Xml2Renderer flags) [] cs).2 true).2 =
      countCloseTags (runHeaders (Xml2Renderer flags) [] cs).2
        + ((runHeaders (Xml2Renderer flags) [] cs).1.sectionLevel).toNat ∧
    (((runHeaders (Xml2Renderer flags) [] cs).1.sectionLevel).toNat : Int) =
      (runHeaders (Xml2Renderer flags) [] cs).1.sectionLevel := by
  obtain ⟨ha, hb, hfl⟩ :=
    runHeaders_inv cs (Xml2Renderer flags) [] hok (show (0 : Int) ≤ 0 by omega)
  set r := runHeaders (Xml2Renderer flags) [] cs with hrdef
  have hb2 : (countOpenTags r.2 : Int) - countCloseTags r.2 = r.1.sectionLevel := by
    simpa [Xml2Renderer, countOpenTags, countCloseTags] using hb
  have hg : ((r.1.flags &&& XML_STANDALONE == 0) : Bool) = false := by
    have : r.1.flags = flags := by simpa [Xml2Renderer] using hfl
    rw [this]
    simpa using hflag
  have hfoot2 : (r.1.DocumentFooter r.2 true).2 =
      r.2 ++ List.replicate r.1.sectionLevel.toNat closeSectionTok
        ++ [matterCloseTok r.1.docLevel, "</rfc>\n"] := by
    simp [Xml2.DocumentFooter, hg]
  obtain ⟨ht1, ht2⟩ := footer_tail_counts r.1.docLevel
  have hO : countOpenTags (r.1.DocumentFooter r.2 true).2 = countOpenTags r.2 := by
    rw [hfoot2]
    simp [countOpenTags_append, countOpenTags_repl, ht2]
  have hC : countCloseTags (r.1.DocumentFooter r.2 true).2 =
      countCloseTags r.2 + r.1.sectionLevel.toNat := by
    rw [hfoot2]
    simp [countCloseTags_append, countCloseTags_repl, ht1]
  refine ⟨?_, hC, ?_⟩
  · rw [hO, hC]
    omega
  · omega

/-- Witness for C1 (amended): for the heading sequence 1, 2, 1 the third
heading closes two sections and the footer closes the remaining one, so the
three opens match the three closes. -/
theorem xml2_c1_sectionBalance_witness :
    headerOk (Xml2Renderer 1)
      [⟨["T1"], true, 1, "a", false⟩, ⟨["T2"], true, 2, "b", false⟩,
        ⟨["T3"], true, 1, "c", false⟩] = true ∧
    countOpenTags ((runHeaders (Xml2Renderer 1) []
        [⟨["T1"], true, 1, "a", false⟩, ⟨["T2"], true, 2, "b", false⟩,
          ⟨["T3"], true, 1, "c", false⟩]).1.DocumentFooter
        (runHeaders (Xml2Renderer 1) []
          [⟨["T1"], true, 1, "a", false⟩, ⟨["T2"], true, 2, "b", false⟩,
            ⟨["T3"], true, 1, "c", false⟩]).2 true).2 =
      countCloseTags ((runHeaders (Xml2Renderer 1) []
        [⟨["T1"], true, 1, "a", false⟩, ⟨["T2"], true, 2, "b", false⟩,
          ⟨["T3"], true, 1, "c", false⟩]).1.DocumentFooter
        (runHeaders (Xml2Renderer 1) []
          [⟨["T1"], true, 1, "a", false⟩, ⟨["T2"], true, 2, "b", false⟩,
            ⟨["T3"], true, 1, "c", false⟩]).2 true).2 :=
  ⟨by decide,
    (xml2_c1_sectionBalance 1
      [⟨["T1"], true, 1, "a", false⟩, ⟨["T2"], true, 2, "b", false⟩,
        ⟨["T3"], true, 1, "c", false⟩] (by decide) (by decide)).1⟩

/-- C1 counterexample: a single heading jumping from depth 0 directly to
level 2 produces one section-open tag, but the standalone footer then emits
two section-close tags, so the document's close count does not equal its open
count — the claim fails as stated for arbitrary level sequences. -/
theorem xml2_c1_counterexample :
    countOpenTags c1FinalEx = 1 ∧ countCloseTags c1FinalEx = 2 ∧
    ¬ (countCloseTags c1FinalEx = countOpenTags c1FinalEx) := by
  refine ⟨by decide, by decide, by decide⟩
